import Mathlib

/-
Verification development for the AXOOXR/crawler repository.

The repository contains three Python programs:
  * src/cwr.py  - an asyncio/aiohttp scraper (CivilicaScraper) that walks the
    paginated article listings of conferences, fetches each article page,
    extracts structured fields, buffers result rows and flushes them to a CSV
    file, and logs failed URLs.
  * src/scr.py  - a Selenium-based parallel scraper with an explicit retry
    helper (retry_get) and a failure log that is merged with any pre-existing
    log on finalization.
  * src/redirect_resolver.py - a Playwright-based URL redirect resolver with
    checkpoint/resume over a snapshot CSV.

Each definition below is a shallow embedding of a function of the source,
keeping the source names where Lean allows it.  Page content is embedded at
the level of the DOM queries the source performs: an ArticlePage records, for
each selector the source consults, the text the selector would return (or
none when the element is absent), and a listing page records the per-li
anchor data that parse_article_list consults.  Network access is embedded as
an oracle function from URL (or page number, or attempt number) to a fetch
outcome.
-/

namespace Crawler

set_option maxRecDepth 4000

/-- Deduplication keeping the first occurrence of each element, in order.
This models pandas DataFrame.drop_duplicates (default keep=first) used on
the failure log in src/scr.py main. -/
def dedupFirst {α : Type} [DecidableEq α] : List α → List α
  | [] => []
  | x :: xs => x :: dedupFirst (xs.filter (fun y => decide (y ≠ x)))
termination_by l => l.length
decreasing_by
  all_goals
  simp only [List.length_cons]
  exact Nat.lt_succ_of_le (List.length_filter_le _ _)

/-- Python str.strip(): remove leading and trailing whitespace. -/
def pyStrip (s : String) : String :=
  String.mk (((s.data.dropWhile Char.isWhitespace).reverse.dropWhile
    Char.isWhitespace).reverse)

/-- Outcome of one HTTP fetch of a page, as observed by the code in
src/cwr.py: a 200 response carrying parsed-level content, a response with a
non-200 status, or a raised exception (timeout, connection error) carrying
its message. -/
inductive FetchResult (α : Type) where
  | success (content : α)
  | badStatus (status : Nat)
  | error (msg : String)
deriving DecidableEq, Repr

/-- Failure record appended to CivilicaScraper.failed_urls in src/cwr.py:
a dict with keys conference_id, url, error. -/
structure FailureRecord where
  conference_id : String
  url : String
  error : String
deriving DecidableEq, Repr

/-- One li element of the listing page ul#articleLists, at the level
parse_article_list consults it: the (text, href attribute) of the anchor
inside the h2, or none when the li has no h2 or the h2 has no anchor. -/
structure ListingItem where
  h2Anchor : Option (String × Option String)
deriving DecidableEq, Repr

/-- A listing page as consulted by parse_article_list in src/cwr.py:
none when the page has no ul with id articleLists, otherwise the list of
li elements. -/
abbrev ListingHtml := Option (List ListingItem)

/-- Removal of a leading article index: re.sub applied to the anchor text in
parse_article_list removes one leading run of digits followed by a dot and
optional whitespace. -/
def stripLeadingIndex (s : String) : String :=
  let cs := s.data
  let ds := cs.takeWhile Char.isDigit
  if ds.isEmpty then s
  else
    match cs.drop ds.length with
    | '.' :: rest => String.mk (rest.dropWhile Char.isWhitespace)
    | _ => s

/-- urljoin with base https://civilica.com/ as used in parse_article_list,
modelled for the href shapes that occur: an absolute URL is returned as is,
a root-relative href is appended to the host, and any other href is resolved
against the base path /. -/
def urljoinCivilica (href : String) : String :=
  if ("http://".data.isPrefixOf href.data) || ("https://".data.isPrefixOf href.data) then
    href
  else if href.data.head? = some '/' then "https://civilica.com" ++ href
  else "https://civilica.com/" ++ href

/-- CivilicaScraper.parse_article_list (src/cwr.py lines 109-126): collect
(conference_id, cleaned title, joined link) for every li whose h2 holds an
anchor with a non-empty href. -/
def parse_article_list (html : ListingHtml) (conference_id : String) :
    List (String × String × String) :=
  match html with
  | none => []
  | some lis =>
    lis.filterMap fun li =>
      match li.h2Anchor with
      | some (text, some href) =>
        if href.isEmpty then none
        else some (conference_id, stripLeadingIndex (pyStrip text), urljoinCivilica href)
      | _ => none

/-- An article page at the level of the DOM queries parse_article_page
performs (src/cwr.py lines 144-189): the text of the abstract div when
present; the citation blockquote when present, carrying the text of its
first p when that exists; the (name anchor text, place p text) of each
author block; the text of the first span with class text-color-muted; and
the texts of the div elements of the keywords container when the container
is present. -/
structure ArticlePage where
  abstractDiv : Option String
  citationBlock : Option (Option String)
  authorBlocks : List (Option String × Option String)
  viewTag : Option String
  keywordsDivs : Option (List String)
deriving DecidableEq, Repr

/-- The dict returned by parse_article_page. authors_map is the Python dict
as an order-preserving association list. -/
structure ArticleDetails where
  abstract : String
  citation : String
  authors : String
  conference : String
  year : String
  keywords : String
  view_count : String
  page_count : String
  authors_map : List (String × String)
deriving DecidableEq, Repr

/-- Python dict assignment m[k] = v on an order-preserving association
list: an existing key keeps its position and gets the new value, a new key
is appended. -/
def upsert (m : List (String × String)) (k v : String) : List (String × String) :=
  if m.any (fun p => p.1 == k) then
    m.map (fun p => if p.1 == k then (p.1, v) else p)
  else m ++ [(k, v)]

/-- The author loop of parse_article_page: a block without a name anchor is
skipped; otherwise authors_map[name] = place, with place defaulting to the
empty string when the place tag is absent. -/
def buildAuthorsMap (blocks : List (Option String × Option String)) :
    List (String × String) :=
  blocks.foldl
    (fun m b =>
      match b.1 with
      | none => m
      | some nm => upsert m (pyStrip nm) ((b.2.map pyStrip).getD ""))
    []

/-- re.search with a digit-group pattern on the view count text: the first
maximal run of digit characters, if any. -/
def firstDigitRun (s : String) : Option String :=
  let cs := (s.data.dropWhile (fun c => !c.isDigit)).takeWhile Char.isDigit
  if cs.isEmpty then none else some (String.mk cs)

/-- CivilicaScraper.extract_keywords_from_page (src/cwr.py lines 128-142):
none when the container div is missing; otherwise the nonempty stripped div
texts joined by a comma and space, or none when every text is empty. -/
def extract_keywords_from_page (keywordsDivs : Option (List String)) :
    Option String :=
  match keywordsDivs with
  | none => none
  | some ds =>
    let ks := (ds.map pyStrip).filter (fun k => !k.isEmpty)
    if ks.isEmpty then none else some (String.intercalate ", " ks)

/-- The citation extraction of parse_article_page: missing blockquote gives
the empty string; a blockquote without a p makes the source call .text on
None, raising AttributeError, which escapes parse_article_page. -/
def citationOf : Option (Option String) → Except String String
  | none => Except.ok ""
  | some none => Except.error "AttributeError: NoneType object has no attribute text"
  | some (some t) => Except.ok (pyStrip t)

/-- CivilicaScraper.parse_article_page (src/cwr.py lines 144-189). The
conference, year and page_count fields are always the empty string; the view
count defaults to the string 0; authors is the comma-space join of the keys
of authors_map. -/
def parse_article_page (page : ArticlePage) : Except String ArticleDetails :=
  match citationOf page.citationBlock with
  | Except.error e => Except.error e
  | Except.ok citation =>
    let m := buildAuthorsMap page.authorBlocks
    Except.ok
      { abstract := (page.abstractDiv.map pyStrip).getD ""
        citation := citation
        authors := String.intercalate ", " (m.map Prod.fst)
        conference := ""
        year := ""
        keywords := (extract_keywords_from_page page.keywordsDivs).getD ""
        view_count :=
          match page.viewTag with
          | none => "0"
          | some t => (firstDigitRun (pyStrip t)).getD "0"
        page_count := ""
        authors_map := m }

/-- One row appended to CivilicaScraper.result_rows. The source stores the
authors map JSON-encoded in the 12th column; the embedding keeps it as the
association list it encodes. -/
structure ArticleRow where
  conference_id : String
  title : String
  link : String
  abstract : String
  citation : String
  authors : String
  conference : String
  year : String
  keywords : String
  view_count : String
  page_count : String
  authors_map : List (String × String)
deriving DecidableEq, Repr

/-- CivilicaScraper.process_article (src/cwr.py lines 191-216): fetch the
article URL; a non-200 status raises an exception with message Status n,
which together with fetch errors and parse exceptions is caught, appending
one failure record and yielding no row; a successful parse yields one row
and no failure record. -/
def process_article (item : String → FetchResult ArticlePage)
    (conference_id title link : String) :
    Option ArticleRow × Option FailureRecord :=
  match item link with
  | FetchResult.success page =>
    match parse_article_page page with
    | Except.ok d =>
      (some { conference_id := conference_id, title := title, link := link
              abstract := d.abstract, citation := d.citation, authors := d.authors
              conference := d.conference, year := d.year, keywords := d.keywords
              view_count := d.view_count, page_count := d.page_count
              authors_map := d.authors_map }, none)
    | Except.error e =>
      (none, some { conference_id := conference_id, url := link, error := e })
  | FetchResult.badStatus st =>
    (none, some { conference_id := conference_id, url := link
                  error := "Status " ++ toString st })
  | FetchResult.error e =>
    (none, some { conference_id := conference_id, url := link, error := e })

/-- The listing URL built in process_conference for a conference id and
page number. -/
def listingUrl (conference_id : String) (page : Nat) : String :=
  "https://civilica.com/l/" ++ conference_id ++ "/pgn-" ++ toString page ++ "/"

/-- Processing of the articles of one listing page: the rows of the
successful articles in listing order, and the failure records of the failed
ones. -/
def processPage (item : String → FetchResult ArticlePage)
    (articles : List (String × String × String)) :
    List ArticleRow × List FailureRecord :=
  (articles.filterMap (fun a => (process_article item a.1 a.2.1 a.2.2).1),
   articles.filterMap (fun a => (process_article item a.1 a.2.1 a.2.2).2))

/-- CivilicaScraper.process_conference (src/cwr.py lines 218-250), with the
unbounded while loop bounded by a fuel argument.  Per page: a non-200
status breaks with no failure record; a fetch exception appends exactly one
failure record keyed on the listing URL and breaks; a 200 response is parsed
and, when the article list is empty, the walk stops, otherwise every
article is dispatched to process_article and the walk advances to the next
page.  The returned pair collects the rows appended to result_rows and the
failure records appended to failed_urls. -/
def process_conference (listing : Nat → FetchResult ListingHtml)
    (item : String → FetchResult ArticlePage) (conference_id : String) :
    Nat → Nat → List ArticleRow × List FailureRecord
  | 0, _ => ([], [])
  | Nat.succ fuel, page =>
    match listing page with
    | FetchResult.badStatus _ => ([], [])
    | FetchResult.error e =>
      ([], [{ conference_id := conference_id, url := listingUrl conference_id page
              error := e }])
    | FetchResult.success html =>
      let articles := parse_article_list html conference_id
      if articles.isEmpty then ([], [])
      else
        let pr := processPage item articles
        let rest := process_conference listing item conference_id fuel (page + 1)
        (pr.1 ++ rest.1, pr.2 ++ rest.2)

/-- Number of occurrences of a link among the article references of the
listing pages that the walk of process_conference actually fetches and
processes, following the same termination conditions. -/
def listedLinkCount (listing : Nat → FetchResult ListingHtml)
    (conference_id u : String) : Nat → Nat → Nat
  | 0, _ => 0
  | Nat.succ fuel, page =>
    match listing page with
    | FetchResult.success html =>
      let articles := parse_article_list html conference_id
      if articles.isEmpty then 0
      else articles.countP (fun a => decide (a.2.2 = u))
           + listedLinkCount listing conference_id u fuel (page + 1)
    | _ => 0

/-- One row of the output CSV file: the header row written by the writerow
call with the column names, or a data row carrying one buffered record. -/
inductive FileRow (α : Type) where
  | header
  | data (row : α)
deriving DecidableEq, Repr

/-- Predicate picking out the header rows of the output file. -/
def isHeader {α : Type} : FileRow α → Bool
  | FileRow.header => true
  | FileRow.data _ => false

/-- State of the Result Sink of src/cwr.py: the in-memory buffer
result_rows, whether the output CSV exists on disk, and the rows of the
output CSV. -/
structure SinkState (α : Type) where
  resultRows : List α
  fileExists : Bool
  file : List (FileRow α)
deriving DecidableEq, Repr

/-- CivilicaScraper.save_results (src/cwr.py lines 91-107): return
immediately when the buffer is empty; otherwise open the output CSV in
append mode (creating it when absent), write the header row only when the
file did not exist, append every buffered row, and clear the buffer. -/
def save_results {α : Type} (s : SinkState α) : SinkState α :=
  if s.resultRows.isEmpty then s
  else
    { resultRows := []
      fileExists := true
      file := (if s.fileExists then s.file else s.file ++ [FileRow.header])
              ++ s.resultRows.map FileRow.data }

/-- The sink state right after CivilicaScraper.run creates the output CSV
(src/cwr.py lines 262-269): the file exists and holds exactly the header
row, and the buffer is empty. -/
def initialSink {α : Type} : SinkState α :=
  { resultRows := [], fileExists := true, file := [FileRow.header] }

/-- One buffering step of process_conference (src/cwr.py lines 239-244):
extend result_rows with the rows of a page, then call save_results when the
buffered count has reached the SAVE_EVERY threshold. -/
def appendBatch {α : Type} (threshold : Nat) (s : SinkState α) (batch : List α) :
    SinkState α :=
  let s1 := { s with resultRows := s.resultRows ++ batch }
  if threshold ≤ s1.resultRows.length then save_results s1 else s1

/-- The Result Sink lifecycle of one run of src/cwr.py: create the output
file with its header, feed every incoming batch through the threshold
check, and call save_results once more at run end (line 277). -/
def runSink {α : Type} (threshold : Nat) (batches : List (List α)) : SinkState α :=
  save_results (batches.foldl (appendBatch threshold) initialSink)

/-- Outcome of the main function of src/cwr.py for a given argument pair,
together with the process exit status.  In the source, an invalid range
logs an error message and returns from main before the scraper is
constructed, so no fetch is begun and the interpreter exits normally with
status 0; sys.exit is never called on either path. -/
inductive MainOutcome where
  | abortedInvalidConfig (exitCode : Nat)
  | ran (exitCode : Nat)
deriving DecidableEq, Repr

/-- The exit status carried by a main outcome. -/
def MainOutcome.exitCode : MainOutcome → Nat
  | MainOutcome.abortedInvalidConfig c => c
  | MainOutcome.ran c => c

/-- The argument validation of main in src/cwr.py (lines 289-297):
start < 0 or end <= start logs an error and returns from main, which ends
the script with exit status 0. -/
def cwrMainOutcome (start endIdx : Int) : MainOutcome :=
  if start < 0 ∨ endIdx ≤ start then MainOutcome.abortedInvalidConfig 0
  else MainOutcome.ran 0

/-- Failure log finalization of src/cwr.py (run, lines 279-282): when the
current run produced no failures nothing is written and any existing log is
left as is; otherwise the current failures are written to the log path,
replacing whatever file was there. -/
def cwrFinalizeFailures (existing : Option (List FailureRecord))
    (current : List FailureRecord) : Option (List FailureRecord) :=
  if current.isEmpty then existing else some current

/-- Failure record appended to failed_urls in src/scr.py: a dict with keys
conference_id and url. -/
structure ScrFailure where
  conference_id : String
  url : String
deriving DecidableEq, Repr

/-- Outcome of one driver.get attempt in src/scr.py: either the navigation
completes and a page is delivered carrying some HTTP status, or a timeout
or WebDriver exception is raised with a message.  Selenium raises only for
the latter; a response with any HTTP status, including 429 and the 5xx
class, is delivered as a loaded (error) page and driver.get returns
normally. -/
inductive AttemptOutcome where
  | loaded (status : Nat)
  | raised (msg : String)
deriving DecidableEq, Repr

/-- The attempt loop of retry_get (src/scr.py lines 96-106): attempts are
numbered from 1 and at most the given number remain; driver.get returning
(a loaded page, whatever its status) is an immediate success, and only a
raised exception is caught and retried.  The pair returned is (whether
some attempt succeeded, how many driver.get calls were made). -/
def retryGetGo (outcome : Nat → AttemptOutcome) : Nat → Nat → Bool × Nat
  | 0, _ => (false, 0)
  | Nat.succ remaining, attempt =>
    match outcome attempt with
    | AttemptOutcome.loaded _ => (true, 1)
    | AttemptOutcome.raised _ =>
      let r := retryGetGo outcome remaining (attempt + 1)
      (r.1, r.2 + 1)

/-- retry_get of src/scr.py (lines 96-106): try driver.get up to retries
times; on the first success return True; when every attempt raises, append
one failure record for the URL and return False.  The result is (returned
boolean, number of attempts performed, failure records appended). -/
def retry_get (outcome : Nat → AttemptOutcome) (retries : Nat)
    (url conference_id : String) : Bool × Nat × List ScrFailure :=
  let r := retryGetGo outcome retries 1
  if r.1 then (true, r.2, [])
  else (false, r.2, [{ conference_id := conference_id, url := url }])

/-- Failure log finalization of src/scr.py main (lines 237-244): nothing is
written when the run produced no failures; otherwise, when a log already
exists at the path, the existing rows are concatenated with the current
ones and exact duplicate rows are dropped keeping first occurrences, and
when no log exists the current rows are written as they are. -/
def scrFinalizeFailures (existing : Option (List ScrFailure))
    (current : List ScrFailure) : Option (List ScrFailure) :=
  if current.isEmpty then existing
  else
    match existing with
    | none => some current
    | some ex => some (dedupFirst (ex ++ current))

/-- One row of the redirect resolver output CSV (src/redirect_resolver.py):
the value of the url column and the value of the Final URL column, the
latter being empty (NaN) when the resolver did not resolve that url. -/
structure ResolvedEntry where
  website : String
  finalUrl : Option String
deriving DecidableEq, Repr

/-- The already-done key set of src/redirect_resolver.py main (lines
49-58): the url-column values of the existing output when it is readable,
and the empty set otherwise. -/
def alreadyDone : Option (List ResolvedEntry) → List String
  | none => []
  | some saved => saved.map (fun e => e.website)

/-- The urls submitted to the worker pool in main (lines 60-64): the work
set minus the already-done keys. -/
def submittedUrls (urls : List String) (saved : Option (List ResolvedEntry)) :
    List String :=
  urls.filter (fun u => !(alreadyDone saved).contains u)

/-- The results dict accumulated in main: one entry per submitted url,
holding the resolved final url, or none when the worker raised. -/
def resolverResults (urls : List String)
    (resolve : String → Option String) (saved : Option (List ResolvedEntry)) :
    List (String × Option String) :=
  (submittedUrls urls saved).map (fun u => (u, resolve u))

/-- The final snapshot written by main (lines 87-92): for every url of the
sliced work set, the Final URL column is results.get(url), which is None
for every url that was not submitted in this run. -/
def finalOutput (urls : List String) (resolve : String → Option String)
    (saved : Option (List ResolvedEntry)) : List ResolvedEntry :=
  urls.map (fun u =>
    { website := u, finalUrl := ((resolverResults urls resolve saved).lookup u).join })

/-- An article page on which every DOM query of parse_article_page comes
back empty: no abstract div, no citation blockquote, no author blocks, no
view count span, no keywords container. -/
def emptyArticlePage : ArticlePage :=
  { abstractDiv := none, citationBlock := none, authorBlocks := []
    viewTag := none, keywordsDivs := none }

theorem mem_dedupFirst {α : Type} [DecidableEq α] :
    ∀ (l : List α) (a : α), a ∈ dedupFirst l ↔ a ∈ l
  | [], a => by simp [dedupFirst]
  | x :: xs, a => by
    simp only [dedupFirst, List.mem_cons]
    by_cases hax : a = x
    · simp [hax]
    · simp only [hax, false_or]
      rw [mem_dedupFirst (xs.filter (fun y => decide (y ≠ x))) a]
      simp [List.mem_filter, hax]
termination_by l => l.length
decreasing_by
  all_goals
  simp only [List.length_cons]
  exact Nat.lt_succ_of_le (List.length_filter_le _ _)

theorem filter_dedupFirst {α : Type} [DecidableEq α] (p : α → Bool) :
    ∀ l : List α, (dedupFirst l).filter p = dedupFirst (l.filter p)
  | [] => by simp [dedupFirst]
  | x :: xs => by
    simp only [dedupFirst]
    by_cases hx : p x = true
    · rw [List.filter_cons_of_pos hx, List.filter_cons_of_pos hx]
      simp only [dedupFirst]
      rw [filter_dedupFirst p (xs.filter (fun y => decide (y ≠ x)))]
      congr 1
      rw [List.filter_comm]
    · rw [List.filter_cons_of_neg hx, List.filter_cons_of_neg hx]
      rw [filter_dedupFirst p (xs.filter (fun y => decide (y ≠ x)))]
      rw [List.filter_comm]
      congr 1
      apply List.filter_eq_self.mpr
      intro a ha
      have hpa : p a = true := (List.mem_filter.mp ha).2
      have hne : a ≠ x := fun he => hx (he ▸ hpa)
      simpa using hne
termination_by l => l.length
decreasing_by
  all_goals
  simp only [List.length_cons]
  exact Nat.lt_succ_of_le (List.length_filter_le _ _)

theorem dedupFirst_append_subset {α : Type} [DecidableEq α] :
    ∀ (l m : List α), (∀ x ∈ m, x ∈ l) → dedupFirst (l ++ m) = dedupFirst l
  | [], m, h => by
    have hm : m = [] := by
      cases m with
      | nil => rfl
      | cons y ys => exact absurd (h y (List.mem_cons_self y ys)) (List.not_mem_nil y)
    simp [hm]
  | x :: xs, m, h => by
    simp only [List.cons_append, dedupFirst, List.filter_append]
    congr 1
    apply dedupFirst_append_subset
    intro y hy
    have hym : y ∈ m := (List.mem_filter.mp hy).1
    have hyne : y ≠ x := by simpa using (List.mem_filter.mp hy).2
    have hyl : y ∈ x :: xs := h y hym
    rw [List.mem_filter]
    refine ⟨?_, by simpa using hyne⟩
    rcases List.mem_cons.mp hyl with h1 | h2
    · exact absurd h1 hyne
    · exact h2
termination_by l _ => l.length
decreasing_by
  all_goals
  simp only [List.length_cons]
  exact Nat.lt_succ_of_le (List.length_filter_le _ _)

theorem dedupFirst_idem_append {α : Type} [DecidableEq α] :
    ∀ (l m : List α), dedupFirst (dedupFirst l ++ m) = dedupFirst (l ++ m)
  | [], m => by simp [dedupFirst]
  | x :: xs, m => by
    simp only [dedupFirst, List.cons_append]
    congr 1
    rw [List.filter_append, filter_dedupFirst]
    have hidem : (xs.filter (fun y => decide (y ≠ x))).filter (fun y => decide (y ≠ x))
        = xs.filter (fun y => decide (y ≠ x)) := by
      apply List.filter_eq_self.mpr
      intro a ha
      exact (List.mem_filter.mp ha).2
    rw [hidem]
    rw [dedupFirst_idem_append (xs.filter (fun y => decide (y ≠ x))) (m.filter (fun y => decide (y ≠ x)))]
    rw [List.filter_append]
termination_by l _ => l.length
decreasing_by
  all_goals
  simp only [List.length_cons]
  exact Nat.lt_succ_of_le (List.length_filter_le _ _)

/-- Claim C7, counterexample: the claim asserts that every run merges a
pre-existing failure log with the current failures; the async scraper of
src/cwr.py instead overwrites the log file with only the current run
failures, so a pre-existing record that is not among the current failures
is lost. -/
theorem cwr_finalize_overwrites_existing_log :
    cwrFinalizeFailures (some [{ conference_id := "1", url := "u1", error := "e1" }])
        [{ conference_id := "2", url := "u2", error := "e2" }]
      = some [{ conference_id := "2", url := "u2", error := "e2" }]
  ∧ ({ conference_id := "1", url := "u1", error := "e1" } : FailureRecord)
      ∉ [({ conference_id := "2", url := "u2", error := "e2" } : FailureRecord)] := by
  exact ⟨rfl, by decide⟩

/-- Claim C7, amended: in the Selenium scraper (src/scr.py) finalization of
a nonempty current failure set against an existing log concatenates the two
and removes exact duplicate tuples keeping first occurrences, and repeating
the finalization with the same current failures leaves the written log
unchanged; in the async scraper (src/cwr.py) finalization of a nonempty
current failure set overwrites the log with only the current failures. -/
theorem failure_log_finalize_behavior :
    (∀ (ex cur : List ScrFailure), ¬ cur.isEmpty = true →
       scrFinalizeFailures (some ex) cur = some (dedupFirst (ex ++ cur)))
  ∧ (∀ (ex cur : List ScrFailure),
       scrFinalizeFailures (scrFinalizeFailures (some ex) cur) cur
         = scrFinalizeFailures (some ex) cur)
  ∧ (∀ (ex cur : List FailureRecord), ¬ cur.isEmpty = true →
       cwrFinalizeFailures (some ex) cur = some cur) := by
  refine ⟨?_, ?_, ?_⟩
  · intro ex cur h
    simp [scrFinalizeFailures, h]
  · intro ex cur
    by_cases h : cur.isEmpty = true
    · simp [scrFinalizeFailures, h]
    · have hne : cur.isEmpty = false := Bool.eq_false_iff.mpr h
      simp only [scrFinalizeFailures, hne, Bool.false_eq_true, if_false]
      show some (dedupFirst (dedupFirst (ex ++ cur) ++ cur)) = some (dedupFirst (ex ++ cur))
      rw [dedupFirst_idem_append]
      rw [dedupFirst_append_subset (ex ++ cur) cur (fun x hx => List.mem_append_right ex hx)]
  · intro ex cur h
    simp [cwrFinalizeFailures, h]

/-- Claim C7, witness: the amended merge equation evaluated on a concrete
existing log and current failure list sharing one record. -/
theorem failure_log_finalize_behavior_witness :
    scrFinalizeFailures (some [{ conference_id := "1", url := "u" }])
        [{ conference_id := "1", url := "u" }, { conference_id := "2", url := "v" }]
      = some (dedupFirst
          ([{ conference_id := "1", url := "u" }] ++
           [{ conference_id := "1", url := "u" }, { conference_id := "2", url := "v" }])) :=
  failure_log_finalize_behavior.1
    [{ conference_id := "1", url := "u" }]
    [{ conference_id := "1", url := "u" }, { conference_id := "2", url := "v" }]
    (by decide)

/-- Claim C6, counterexample: with start = -1 and end = 5 the source logs
the error and returns from main before any fetch, and the process then ends
with exit status 0, so the claimed non-zero exit status does not hold. -/
theorem invalid_range_exits_zero :
    cwrMainOutcome (-1) 5 = MainOutcome.abortedInvalidConfig 0
  ∧ ¬ 0 < (cwrMainOutcome (-1) 5).exitCode := by
  refine ⟨by decide, by decide⟩

/-- Claim C6, amended: every configuration with startIndex below 0 or
endIndex at most startIndex aborts before any fetch is begun or work
scheduled and reports the error to the operator, but the process exits with
status 0 rather than a non-zero status. -/
theorem invalid_range_aborts_with_exit_zero (start endIdx : Int)
    (h : start < 0 ∨ endIdx ≤ start) :
    cwrMainOutcome start endIdx = MainOutcome.abortedInvalidConfig 0 := by
  unfold cwrMainOutcome
  rw [if_pos h]

/-- Claim C6, witness: the amended abort behavior at start = -1, end = 5. -/
theorem invalid_range_aborts_with_exit_zero_witness :
    cwrMainOutcome (-1) 5 = MainOutcome.abortedInvalidConfig 0 :=
  invalid_range_aborts_with_exit_zero (-1) 5 (Or.inl (by decide))

/-- Claim C2: against an existing output with resolved entries for keys a
and b and a work set of a, b, c, the resumed run submits only c to the
worker pool, but the final snapshot written at completion maps the Final
URL of a and b to None because the results dict of the run holds only this
run's resolutions, so the previously resolved entries of a and b are not
left unchanged. -/
theorem resume_final_snapshot_drops_prior_results :
    submittedUrls ["a", "b", "c"]
        (some [{ website := "a", finalUrl := some "ra" },
               { website := "b", finalUrl := some "rb" }]) = ["c"]
  ∧ finalOutput ["a", "b", "c"] (fun u => some (u ++ "R"))
        (some [{ website := "a", finalUrl := some "ra" },
               { website := "b", finalUrl := some "rb" }])
      = [{ website := "a", finalUrl := none },
         { website := "b", finalUrl := none },
         { website := "c", finalUrl := some "cR" }] := by
  exact ⟨by decide, by decide⟩

/-- Helper for claim C3: when every attempt raises, the retry loop of
retry_get uses all remaining attempts and reports failure. -/
theorem retryGetGo_all_fail (outcome : Nat → AttemptOutcome)
    (h : ∀ i, ∃ e, outcome i = AttemptOutcome.raised e) :
    ∀ (remaining attempt : Nat), retryGetGo outcome remaining attempt = (false, remaining)
  | 0, _ => rfl
  | Nat.succ remaining, attempt => by
    obtain ⟨e, he⟩ := h attempt
    simp [retryGetGo, he, retryGetGo_all_fail outcome h remaining (attempt + 1)]

/-- Claim C3, counterexample: against a URL whose every fetch attempt
yields the transient status 429, retry_get configured with 3 retries does
not perform 3 attempts and does not report a permanent failure: Selenium
delivers the 429 response as a loaded page without raising, so the very
first driver.get returns, retry_get returns True after exactly 1 attempt,
and no failure record is appended. -/
theorem transient_status_load_defeats_retry :
    retry_get (fun _ => AttemptOutcome.loaded 429) 3
        "https://civilica.com/l/7/pgn-1/" "7" = (true, 1, [])
  ∧ (1 : Nat) ≠ 3 := ⟨rfl, by decide⟩

/-- Claim C3, amended: only raised transient errors (timeouts, WebDriver
errors) are retried.  Against a URL whose every attempt raises such an
error, retry_get with 3 retries performs exactly 3 attempts, then reports
the exhaustion by appending one failure record and returning False to the
caller, after which no further attempt is made.  An attempt that loads a
page carrying a transient HTTP status (429 or 5xx) counts as a success:
retry_get returns True after that single attempt with no retry and no
failure record.  In the async scraper the item fetch makes a single
attempt and a non-success status fails immediately with one failure record
and no retry (its retrying HTTP session is never used). -/
theorem retry_transient_attempt_behavior :
    (∀ (outcome : Nat → AttemptOutcome) (url conference_id : String),
      (∀ i, ∃ e, outcome i = AttemptOutcome.raised e) →
      retry_get outcome 3 url conference_id
        = (false, 3, [{ conference_id := conference_id, url := url }]))
  ∧ (∀ (outcome : Nat → AttemptOutcome) (url conference_id : String) (st : Nat),
      outcome 1 = AttemptOutcome.loaded st →
      retry_get outcome 3 url conference_id = (true, 1, []))
  ∧ (∀ (item : String → FetchResult ArticlePage)
        (conference_id title link : String) (st : Nat),
      item link = FetchResult.badStatus st →
      process_article item conference_id title link
        = (none, some { conference_id := conference_id, url := link
                        error := "Status " ++ toString st })) := by
  refine ⟨?_, ?_, ?_⟩
  · intro outcome url conference_id h
    unfold retry_get
    rw [retryGetGo_all_fail outcome h 3 1]
    rfl
  · intro outcome url conference_id st h
    unfold retry_get retryGetGo
    rw [h]
    rfl
  · intro item conference_id title link st h
    simp [process_article, h]

/-- Claim C3, witness: exhaustion after exactly three attempts against an
always-timing-out URL, and the one-attempt immediate failure of the async
item fetch on a 503 status. -/
theorem retry_transient_attempt_behavior_witness :
    retry_get (fun _ => AttemptOutcome.raised "timeout") 3
        "https://civilica.com/l/7/pgn-1/" "7"
      = (false, 3, [{ conference_id := "7", url := "https://civilica.com/l/7/pgn-1/" }])
  ∧ process_article (fun _ => FetchResult.badStatus 503) "7" "T"
        "https://civilica.com/doc/1/"
      = (none, some { conference_id := "7", url := "https://civilica.com/doc/1/"
                      error := "Status " ++ toString 503 }) :=
  ⟨retry_transient_attempt_behavior.1 (fun _ => AttemptOutcome.raised "timeout")
      "https://civilica.com/l/7/pgn-1/" "7" (fun _ => ⟨"timeout", rfl⟩),
   retry_transient_attempt_behavior.2.2 (fun _ => FetchResult.badStatus 503)
      "7" "T" "https://civilica.com/doc/1/" 503 rfl⟩

/-- Helper for claim C8: when the output file already exists, save_results
keeps it existing and only appends data rows. -/
theorem save_results_file {α : Type} (s : SinkState α) (h : s.fileExists = true) :
    (save_results s).fileExists = true ∧
    (save_results s).file = s.file ++ s.resultRows.map FileRow.data := by
  by_cases he : s.resultRows.isEmpty = true
  · have hnil : s.resultRows = [] := List.isEmpty_iff.mp he
    simp [save_results, he, hnil, h]
  · simp [save_results, he, h]

/-- Helper for claim C8: one buffering step keeps the file existing and
appends only data rows to it. -/
theorem appendBatch_file {α : Type} (threshold : Nat) (s : SinkState α)
    (b : List α) (h : s.fileExists = true) :
    (appendBatch threshold s b).fileExists = true ∧
    ∃ ds : List α, (appendBatch threshold s b).file = s.file ++ ds.map FileRow.data := by
  unfold appendBatch
  by_cases hl : threshold ≤ (s.resultRows ++ b).length
  · simp only [hl, if_true]
    have hs := save_results_file { s with resultRows := s.resultRows ++ b } h
    exact ⟨hs.1, s.resultRows ++ b, hs.2⟩
  · simp only [hl, if_false]
    exact ⟨h, [], by simp⟩

/-- Helper for claim C8: feeding any batch sequence keeps the file existing
and appends only data rows. -/
theorem foldl_appendBatch_file {α : Type} (threshold : Nat) :
    ∀ (batches : List (List α)) (s : SinkState α), s.fileExists = true →
      (batches.foldl (appendBatch threshold) s).fileExists = true ∧
      ∃ ds : List α,
        (batches.foldl (appendBatch threshold) s).file = s.file ++ ds.map FileRow.data
  | [], s, h => ⟨h, [], by simp⟩
  | b :: bs, s, h => by
    obtain ⟨h1, ds1, hf1⟩ := appendBatch_file threshold s b h
    obtain ⟨h2, ds2, hf2⟩ := foldl_appendBatch_file threshold bs (appendBatch threshold s b) h1
    refine ⟨h2, ds1 ++ ds2, ?_⟩
    simp only [List.foldl_cons, hf2, hf1, List.map_append, List.append_assoc]

/-- Claim C8: in fresh-output mode the run first creates the output file
holding exactly the header row; for every flush threshold and every batch
sequence fed through the threshold check, with the unconditional final
flush of run end, the resulting file holds exactly one header row and that
header is its first row, before any data row. -/
theorem fresh_output_single_header_before_data {α : Type} (threshold : Nat)
    (batches : List (List α)) :
    (runSink threshold batches).file.countP isHeader = 1
  ∧ (runSink threshold batches).file.head? = some FileRow.header := by
  obtain ⟨h1, ds1, hf1⟩ :=
    foldl_appendBatch_file threshold batches (initialSink (α := α)) rfl
  have hfin := save_results_file (batches.foldl (appendBatch threshold) initialSink) h1
  unfold runSink
  rw [hfin.2, hf1]
  have hinit : (initialSink (α := α)).file = [FileRow.header] := rfl
  rw [hinit]
  constructor
  · have hz : (isHeader ∘ FileRow.data (α := α)) = fun _ => false :=
      funext (fun _ => rfl)
    simp [List.countP_append, List.countP_map, List.countP_cons, isHeader, hz]
  · simp

/-- Claim C4: with flush threshold 3 and seven records arriving one at a
time, the buffer is flushed right after the third and the sixth record and
not in between, and the unconditional flush at run end persists the one
remaining record: the final file carries all 7 data rows in order under the
single header row written at file creation. -/
theorem flush_cadence_threshold_three_seven_records {α : Type}
    (r1 r2 r3 r4 r5 r6 r7 : α) :
    ([[r1], [r2], [r3]].foldl (appendBatch 3) initialSink).file
      = [FileRow.header, FileRow.data r1, FileRow.data r2, FileRow.data r3]
  ∧ ([[r1], [r2], [r3]].foldl (appendBatch 3) initialSink).resultRows = []
  ∧ ([[r1], [r2], [r3], [r4], [r5]].foldl (appendBatch 3) initialSink).file
      = [FileRow.header, FileRow.data r1, FileRow.data r2, FileRow.data r3]
  ∧ ([[r1], [r2], [r3], [r4], [r5]].foldl (appendBatch 3) initialSink).resultRows
      = [r4, r5]
  ∧ ([[r1], [r2], [r3], [r4], [r5], [r6]].foldl (appendBatch 3) initialSink).file
      = [FileRow.header, FileRow.data r1, FileRow.data r2, FileRow.data r3,
         FileRow.data r4, FileRow.data r5, FileRow.data r6]
  ∧ ([[r1], [r2], [r3], [r4], [r5], [r6]].foldl (appendBatch 3) initialSink).resultRows
      = []
  ∧ runSink 3 [[r1], [r2], [r3], [r4], [r5], [r6], [r7]]
      = { resultRows := []
          fileExists := true
          file := [FileRow.header, FileRow.data r1, FileRow.data r2, FileRow.data r3,
                   FileRow.data r4, FileRow.data r5, FileRow.data r6, FileRow.data r7] } := by
  refine ⟨?_, ?_, ?_, ?_, ?_, ?_, ?_⟩ <;>
    simp [runSink, appendBatch, save_results, initialSink, List.foldl]

/-- Claim C1, counterexample: when the fetch of listing page 1 comes back
with a non-success status, the walk of process_conference dispatches zero
items and terminates, but it appends no failure record at all, so exactly
one FailureRecord for the listing URL is not logged. -/
theorem listing_status_failure_logs_no_failure :
    process_conference (fun _ => FetchResult.badStatus 500)
      (fun _ => FetchResult.error "boom") "7" 5 1 = ([], []) := rfl

/-- Claim C1, amended: when the fetch of a listing page raises an
unrecoverable error, the walk dispatches zero items from that page, records
exactly one FailureRecord keyed on the listing URL, and terminates; when
the fetch comes back with a non-success status, the walk dispatches zero
items from that page and terminates recording no FailureRecord. -/
theorem listing_fetch_failure_terminates_walk :
    (∀ (listing : Nat → FetchResult ListingHtml)
        (item : String → FetchResult ArticlePage)
        (conference_id e : String) (fuel page : Nat),
      listing page = FetchResult.error e →
      process_conference listing item conference_id (fuel + 1) page
        = ([], [{ conference_id := conference_id
                  url := listingUrl conference_id page, error := e }]))
  ∧ (∀ (listing : Nat → FetchResult ListingHtml)
        (item : String → FetchResult ArticlePage)
        (conference_id : String) (st fuel page : Nat),
      listing page = FetchResult.badStatus st →
      process_conference listing item conference_id (fuel + 1) page = ([], [])) := by
  constructor
  · intro listing item conference_id e fuel page h
    simp [process_conference, h]
  · intro listing item conference_id st fuel page h
    simp [process_conference, h]

/-- Claim C1, witness: the walk of a collection whose page 1 fetch raises a
timeout dispatches nothing and logs exactly the one failure record keyed on
the pgn-1 listing URL. -/
theorem listing_fetch_failure_terminates_walk_witness :
    process_conference (fun _ => FetchResult.error "timeout")
      (fun _ => FetchResult.error "x") "5" 3 1
      = ([], [{ conference_id := "5", url := listingUrl "5" 1, error := "timeout" }]) :=
  listing_fetch_failure_terminates_walk.1 (fun _ => FetchResult.error "timeout")
    (fun _ => FetchResult.error "x") "5" "timeout" 2 1 rfl

/-- Helper for claim C5: author blocks without a name anchor contribute
nothing to the authors map. -/
theorem buildAuthorsMap_nil_of_no_names :
    ∀ (blocks : List (Option String × Option String)),
      (∀ b ∈ blocks, b.1 = none) → buildAuthorsMap blocks = []
  | [], _ => rfl
  | b :: bs, h => by
    have h1 : b.1 = none := h b (List.mem_cons_self b bs)
    have hrest := buildAuthorsMap_nil_of_no_names bs
      (fun x hx => h x (List.mem_cons_of_mem b hx))
    simpa [buildAuthorsMap, h1] using hrest

/-- Claim C5, counterexample: an article page that fetches successfully but
on which every structured field is missing yields a record and no failure
record, but the View_Count field of the record is the string 0, not the
empty string, so not every missing optional field degrades to the empty
string. -/
theorem empty_page_view_count_not_empty_string :
    (process_article (fun _ => FetchResult.success emptyArticlePage) "9" "T"
        "https://civilica.com/doc/1/").2 = none
  ∧ ((process_article (fun _ => FetchResult.success emptyArticlePage) "9" "T"
        "https://civilica.com/doc/1/").1.map (fun r => r.view_count)) = some "0"
  ∧ (some "0" : Option String) ≠ some "" := by
  refine ⟨rfl, rfl, by decide⟩

/-- Claim C5, amended: an item page that fetches successfully but is
missing any or all structured fields yields exactly one ItemRecord with the
empty string for every missing optional field except View_Count, which
defaults to the string 0, and the empty mapping for Authors_Map; no
FailureRecord is recorded for the item and the run is not aborted. -/
theorem empty_page_yields_record_no_failure
    (item : String → FetchResult ArticlePage) (conference_id title link : String)
    (blocks : List (Option String × Option String))
    (hb : ∀ b ∈ blocks, b.1 = none)
    (hi : item link = FetchResult.success
      { abstractDiv := none, citationBlock := none, authorBlocks := blocks
        viewTag := none, keywordsDivs := none }) :
    process_article item conference_id title link
      = (some { conference_id := conference_id, title := title, link := link
                abstract := "", citation := "", authors := "", conference := ""
                year := "", keywords := "", view_count := "0", page_count := ""
                authors_map := [] }, none) := by
  have hm := buildAuthorsMap_nil_of_no_names blocks hb
  simp [process_article, hi, parse_article_page, citationOf,
    extract_keywords_from_page, hm]
  rfl

/-- Claim C5, witness: the amended degradation behavior on the fully empty
article page. -/
theorem empty_page_yields_record_no_failure_witness :
    process_article (fun _ => FetchResult.success emptyArticlePage) "9" "T" "L"
      = (some { conference_id := "9", title := "T", link := "L", abstract := ""
                citation := "", authors := "", conference := "", year := ""
                keywords := "", view_count := "0", page_count := ""
                authors_map := [] }, none) :=
  empty_page_yields_record_no_failure
    (fun _ => FetchResult.success emptyArticlePage) "9" "T" "L" []
    (fun b hb => absurd hb (List.not_mem_nil b)) rfl

/-- Helper for claim C10: parse_article_page computes the authors string as
the comma-space join of the keys of the authors map it builds. -/
theorem parse_article_page_authors_join (page : ArticlePage) (d : ArticleDetails)
    (h : parse_article_page page = Except.ok d) :
    d.authors = String.intercalate ", " (d.authors_map.map Prod.fst) := by
  unfold parse_article_page at h
  cases hc : citationOf page.citationBlock with
  | error e => rw [hc] at h; exact Except.noConfusion h
  | ok c =>
    rw [hc] at h
    have hd := Except.ok.inj h
    rw [← hd]

/-- Claim C10: every ItemRecord emitted by process_article satisfies the
internal consistency relation between its two author fields: the Authors
string equals the comma-space join of the keys of Authors_Map, in the order
the authors were discovered on the page. -/
theorem authors_field_matches_authors_map_keys
    (item : String → FetchResult ArticlePage) (conference_id title link : String)
    (r : ArticleRow) (h : (process_article item conference_id title link).1 = some r) :
    r.authors = String.intercalate ", " (r.authors_map.map Prod.fst) := by
  cases hi : item link with
  | success page =>
    cases hp : parse_article_page page with
    | ok d =>
      have hj := parse_article_page_authors_join page d hp
      simp [process_article, hi, hp] at h
      rw [← h]
      exact hj
    | error e => simp [process_article, hi, hp] at h
  | badStatus st => simp [process_article, hi] at h
  | error e => simp [process_article, hi] at h

/-- Claim C10, witness: the relation evaluated on a page carrying two
author blocks. -/
theorem authors_field_matches_authors_map_keys_witness :
    ({ conference_id := "1", title := "T", link := "L", abstract := ""
       citation := "", authors := "Ali, Sara", conference := "", year := ""
       keywords := "", view_count := "0", page_count := ""
       authors_map := [("Ali", "Tehran"), ("Sara", "")] } : ArticleRow).authors
      = String.intercalate ", "
          (([("Ali", "Tehran"), ("Sara", "")] : List (String × String)).map Prod.fst) :=
  authors_field_matches_authors_map_keys
    (fun _ => FetchResult.success
      { abstractDiv := none, citationBlock := none
        authorBlocks := [(some "Ali", some "Tehran"), (some "Sara", none)]
        viewTag := none, keywordsDivs := none })
    "1" "T" "L" _ (by decide)

/-- Helper for claim C9: a row emitted by process_article carries the link
it was dispatched for. -/
theorem process_article_link (item : String → FetchResult ArticlePage)
    (conference_id title link : String) (r : ArticleRow)
    (h : (process_article item conference_id title link).1 = some r) :
    r.link = link := by
  cases hi : item link with
  | success page =>
    cases hp : parse_article_page page with
    | ok d =>
      simp [process_article, hi, hp] at h
      rw [← h]
    | error e => simp [process_article, hi, hp] at h
  | badStatus st => simp [process_article, hi] at h
  | error e => simp [process_article, hi] at h

/-- Helper for claim C9: counting over a filterMap is bounded by counting
over the input when the predicate transfers along the partial map. -/
theorem countP_filterMap_le {α β : Type} (f : α → Option β) (p : β → Bool)
    (q : α → Bool) (h : ∀ a b, f a = some b → p b = true → q a = true) :
    ∀ l : List α, (l.filterMap f).countP p ≤ l.countP q
  | [] => by simp
  | a :: l => by
    have ih := countP_filterMap_le f p q h l
    cases hf : f a with
    | none =>
      simp only [List.filterMap_cons, hf, List.countP_cons]
      split <;> omega
    | some b =>
      simp only [List.filterMap_cons, hf, List.countP_cons]
      by_cases hb : p b = true
      · rw [if_pos hb, if_pos (h a b hf hb)]
        omega
      · rw [if_neg hb]
        split <;> omega

/-- Helper for claim C9: within one listing page, the rows emitted for a
given link are at most the occurrences of that link among the article
references of the page. -/
theorem processPage_countP_le (item : String → FetchResult ArticlePage)
    (u : String) (articles : List (String × String × String)) :
    ((processPage item articles).1.countP (fun r => decide (r.link = u)))
      ≤ articles.countP (fun a => decide (a.2.2 = u)) := by
  apply countP_filterMap_le
  intro a r hf hp
  have hl := process_article_link item a.1 a.2.1 a.2.2 r hf
  have hpu : r.link = u := of_decide_eq_true hp
  exact decide_eq_true (hl ▸ hpu)

/-- Helper for claim C9: across the whole walk of one collection, the rows
emitted for a given link are at most the occurrences of that link among the
article references of the listing pages the walk processes. -/
theorem rows_countP_le (listing : Nat → FetchResult ListingHtml)
    (item : String → FetchResult ArticlePage) (conference_id u : String) :
    ∀ (fuel page : Nat),
      ((process_conference listing item conference_id fuel page).1.countP
          (fun r => decide (r.link = u)))
        ≤ listedLinkCount listing conference_id u fuel page
  | 0, page => by simp [process_conference, listedLinkCount]
  | Nat.succ fuel, page => by
    have ih := rows_countP_le listing item conference_id u fuel (page + 1)
    cases hl : listing page with
    | badStatus st => simp [process_conference, listedLinkCount, hl]
    | error e => simp [process_conference, listedLinkCount, hl]
    | success html =>
      by_cases ha : (parse_article_list html conference_id).isEmpty = true
      · simp [process_conference, listedLinkCount, hl, ha]
      · have hp := processPage_countP_le item u (parse_article_list html conference_id)
        simp only [process_conference, listedLinkCount, hl, ha,
          Bool.false_eq_true, if_false, List.countP_append]
        omega

/-- Claim C9, amended: within a single run, the number of ItemRecords
emitted for a (collectionID, url) pair is bounded by the number of times
that url occurs among the article references of the listing pages the walk
processes; in particular the pair is emitted at most once whenever the
listing pages of the collection reference the url at most once in total,
but a server that repeats a url across listing pages produces one record
per occurrence. -/
theorem records_bounded_by_listing_occurrences :
    (∀ (listing : Nat → FetchResult ListingHtml)
        (item : String → FetchResult ArticlePage)
        (conference_id u : String) (fuel page : Nat),
      ((process_conference listing item conference_id fuel page).1.countP
          (fun r => decide (r.link = u)))
        ≤ listedLinkCount listing conference_id u fuel page)
  ∧ (∀ (listing : Nat → FetchResult ListingHtml)
        (item : String → FetchResult ArticlePage)
        (conference_id u : String) (fuel page : Nat),
      listedLinkCount listing conference_id u fuel page ≤ 1 →
      ((process_conference listing item conference_id fuel page).1.countP
          (fun r => decide (r.link = u))) ≤ 1) :=
  ⟨fun listing item conference_id u fuel page =>
      rows_countP_le listing item conference_id u fuel page,
   fun listing item conference_id u fuel page hb =>
      Nat.le_trans (rows_countP_le listing item conference_id u fuel page) hb⟩

/-- Claim C9, witness: a collection whose single listing page references
the url once emits the pair at most once. -/
theorem records_bounded_by_listing_occurrences_witness :
    ((process_conference
        (fun p => if p = 1
          then FetchResult.success
            (some [{ h2Anchor := some ("1. T", some "https://civilica.com/doc/9/") }])
          else FetchResult.success (some []))
        (fun _ => FetchResult.success emptyArticlePage)
        "9" 5 1).1.countP
      (fun r => decide (r.link = "https://civilica.com/doc/9/"))) ≤ 1 :=
  records_bounded_by_listing_occurrences.2
    (fun p => if p = 1
      then FetchResult.success
        (some [{ h2Anchor := some ("1. T", some "https://civilica.com/doc/9/") }])
      else FetchResult.success (some []))
    (fun _ => FetchResult.success emptyArticlePage)
    "9" "https://civilica.com/doc/9/" 5 1 (by decide)

/-- Claim C9, counterexample: a server that returns the same article
reference on listing pages 1 and 2 and an empty page 3 makes the walk emit
two ItemRecords for the same (collectionID, url) pair within one run, so
at-most-once emission does not hold for every listing page sequence. -/
theorem repeated_listing_item_emitted_twice :
    ((process_conference
        (fun p => if p ≤ 2
          then FetchResult.success
            (some [{ h2Anchor := some ("1. T", some "https://civilica.com/doc/9/") }])
          else FetchResult.success (some []))
        (fun _ => FetchResult.success emptyArticlePage)
        "9" 5 1).1.countP
      (fun r => decide (r.conference_id = "9" ∧ r.link = "https://civilica.com/doc/9/"))) = 2 := by
  decide

end Crawler
